import Mathlib

/-!
Shallow embedding of the One-Word Story system: the coordinator server
(`server.py`) and the peer client (`main.py`).

Timestamps are modelled as integers (Python floats carry second-resolution
wall-clock values; every claim only compares differences of timestamps
against whole-second constants, and those comparisons are exact here).
Python dictionaries keyed by an id are modelled as
association lists; `random.choice(pool)` is modelled by an arbitrary index `k`
reduced modulo the pool length, so theorems quantify over every draw the code
could make.  A missing JSON field that the code tests with `if not x` is
modelled by `none`, and a falsy (empty) string by the empty string.
-/

namespace Icebreaker

/-- Wall-clock time in seconds, as in `time.time()`. -/
abbrev Time := ℤ

/-- server.py line 40: participants are active if seen within this window. -/
def ACTIVE_TIMEOUT : Time := 90

/-- main.py line 27: peers unseen for longer than this are pruned. -/
def DISCOVERY_TIMEOUT : Time := 8

/-- The replicated game state dictionary (server.py lines 26-32,
main.py line 52): game_id, seq, sentence, holder_id, completed. -/
structure GameState where
  game_id : String
  seq : Nat
  sentence : String
  holder_id : Option String
  completed : Bool
deriving Repr, DecidableEq

/-- One entry of the coordinator's participants dictionary
(server.py line 147); the profile payload is irrelevant to the claims. -/
structure Participant where
  id : String
  name : String
  last_seen : Time
deriving Repr, DecidableEq

/-- The coordinator's mutable stores: the participants dictionary and the
authoritative game state (server.py lines 22 and 26). -/
structure ServerState where
  participants : List Participant
  game : GameState
deriving Repr, DecidableEq

/-- Body of a Flask JSON reply as the handlers build it.  `obj` is
`jsonify(dict)`: an object with the optional keys ok / error / new_holder.
`arr` is the two-argument call `jsonify(dict, code)`, which serialises a JSON
ARRAY `[dict, code]` — the code is part of the body, not the HTTP status. -/
inductive RespBody where
  | obj (ok : Bool) (error : Option String) (new_holder : Option String)
  | arr (ok : Bool) (error : Option String) (code : Nat)
deriving Repr, DecidableEq

/-- An HTTP response: status code plus JSON body.  A bare `jsonify(x)` return
carries status 200; `return jsonify(x), c` carries status `c`. -/
structure Resp where
  status : Nat
  body : RespBody
deriving Repr, DecidableEq

/-- Outcome of a coordinator handler: the response, the coordinator state
after the handler, and whether `broadcast_state()` ran. -/
structure Outcome where
  resp : Resp
  state : ServerState
  broadcast : Bool
deriving Repr, DecidableEq

/-- Participants other than the requester
(server.py line 195: `[p for p in participants.values() if p["id"] != pid]`). -/
def otherParts (ps : List Participant) (pid : String) : List Participant :=
  ps.filter (fun p => p.id ≠ pid)

/-- Recently seen participants (server.py line 200:
`[p for p in other_parts if (now - p.get("last_seen",0)) <= ACTIVE_TIMEOUT]`). -/
def activeParts (others : List Participant) (now : Time) : List Participant :=
  others.filter (fun p => now - p.last_seen ≤ ACTIVE_TIMEOUT)

/-- A placeholder participant for `List.getD`; every use is guarded by a
non-empty pool, so it is never actually selected. -/
def dfltPart : Participant := ⟨"", "", 0⟩

/-- Python truthiness of an optional string (`if target:`):
false for a missing field and for the empty string. -/
def truthy : Option String → Bool
  | none => false
  | some s => s ≠ ""

/-- The selection pool of the `/pass` handler (server.py line 212:
`pool = active if active else other_parts`). -/
def passPool (st : ServerState) (now : Time) (pid : String) : List Participant :=
  let others := otherParts st.participants pid
  let active := activeParts others now
  if active = [] then others else active

/-- The id drawn by `random.choice(pool)["id"]` (server.py line 216) when the
draw lands on index `k % pool.length`. -/
def passChoice (st : ServerState) (now : Time) (pid : String) (k : Nat) : String :=
  ((passPool st now pid).getD (k % (passPool st now pid).length) dfltPart).id

/-- The `/pass` handler, server.py lines 181-223.  `pid` is the requester id
(empty string models a falsy id), `target` the optional target_id, `k` the
random draw.  Mirrors the code path by path, including line 197 where the
status 400 is passed INSIDE `jsonify`, producing an HTTP 200 whose body is
the array `[dict, 400]`. -/
def do_pass (st : ServerState) (now : Time) (pid : String)
    (target : Option String) (k : Nat) : Outcome :=
  if pid = "" then
    ⟨⟨400, .obj false (some "id required") none⟩, st, false⟩
  else
    let others := otherParts st.participants pid
    if others = [] then
      ⟨⟨200, .arr false (some "no other participants registered") 400⟩, st, false⟩
    else
      let chosen : Option String :=
        if truthy target then
          match target with
          | some t =>
            if (t ∈ st.participants.map (·.id) ∧ t ≠ pid) then some t else none
          | none => none
        else
          some (passChoice st now pid k)
      match chosen with
      | none =>
        ⟨⟨400, .obj false (some "requested target invalid or not found") none⟩, st, false⟩
      | some c =>
        ⟨⟨200, .obj true none (some c)⟩,
         { st with game := { st.game with holder_id := some c, seq := st.game.seq + 1 } },
         true⟩

/-- The `/update_game` handler, server.py lines 164-179.  `gs` is the posted
game_state (`none` models a missing or falsy payload).  The posted states the
client sends always carry every key, so `game_state.update(gs)` is full
replacement.  Mirrors line 173 where the status 403 is passed INSIDE
`jsonify`, producing an HTTP 200 whose body is the array `[dict, 403]`. -/
def update_game (st : ServerState) (pid : String) (gs : Option GameState) : Outcome :=
  match gs with
  | none => ⟨⟨400, .obj false (some "id and game_state required") none⟩, st, false⟩
  | some g =>
    if pid = "" then
      ⟨⟨400, .obj false (some "id and game_state required") none⟩, st, false⟩
    else if g.holder_id ≠ some pid then
      ⟨⟨200, .arr false (some "sender must be the holder") 403⟩, st, false⟩
    else
      ⟨⟨200, .obj true none none⟩, { st with game := g }, true⟩

/-! Client side (main.py). -/

/-- Python `str.strip()`: drop leading and trailing whitespace characters. -/
def pyStrip (s : String) : String :=
  ⟨((s.data.dropWhile Char.isWhitespace).reverse.dropWhile
      Char.isWhitespace).reverse⟩

/-- Python `str.lower()`: lowercase every character. -/
def pyLower (s : String) : String := ⟨s.data.map Char.toLower⟩

/-- Python `norm` (main.py line 35): strip surrounding whitespace and
lowercase. -/
def norm (s : String) : String := pyLower (pyStrip s)

/-- A profile attribute value: either a single string or a list of strings
(main.py lines 354-360 build profiles of exactly these two shapes). -/
inductive FieldVal where
  | str (s : String)
  | vals (xs : List String)
deriving Repr, DecidableEq

/-- Python `list_contains` (main.py lines 36-40): a string compares whole
after normalisation; a list matches if some element normalises equal. -/
def list_contains : FieldVal → String → Bool
  | .str s, query => norm s = norm query
  | .vals xs, query => xs.any (fun item => norm item = norm query)

/-- A peer's full profile as carried in connect / connect_ack: the node id
plus the attribute dictionary. -/
structure PeerProfile where
  id : String
  fields : List (String × FieldVal)
deriving Repr, DecidableEq

/-- The verify decision of the responder (main.py lines 116-122):
`actual = self.profile.get(field)`; a list dispatches to `list_contains`,
anything else is compared by `norm(actual) == norm(value)` — and for a
MISSING field `actual` is Python `None`, whose `norm` is the string "none". -/
def verify_match (fields : List (String × FieldVal)) (field value : String) : Bool :=
  match fields.lookup field with
  | some (.vals xs) => list_contains (.vals xs) value
  | some (.str s) => norm s = norm value
  | none => norm "None" = norm value

/-- One line-delimited handshake message (main.py §6 message shapes). -/
inductive Msg where
  | verify (field value : String)
  | verifyResult (ok : Bool)
  | connect (profile : PeerProfile)
  | connectAck (profile : PeerProfile)
  | other
deriving Repr, DecidableEq

/-- The connections dictionary keyed by peer id (main.py line 46). -/
abbrev Conns := List (String × PeerProfile)

/-- Python dict assignment `self.connections[p.id] = p`: replace any entry
under that key and add the new one. -/
def insertConn (conns : Conns) (p : PeerProfile) : Conns :=
  (p.id, p) :: conns.filter (fun kv => kv.1 ≠ p.id)

/-- Python `resp.get("ok", False)` over a parsed message: only a
verify_result carries an ok flag. -/
def msgOk : Msg → Bool
  | .verifyResult b => b
  | _ => false

/-- Python `ack.get("profile")` over a parsed message. -/
def msgProfile : Msg → Option PeerProfile
  | .connect p => some p
  | .connectAck p => some p
  | _ => none

/-- Responder side of a handshake stream (main.py lines 108-144,
`handle_client`).  `selfP` is this node's full profile, whose `fields` are
its attribute dictionary; `msg1` and `msg2` are the first and second parsed
lines read from the stream (`none` models EOF or an unparsable line, whose
exception leaves everything unchanged).  Returns the connections dictionary
after the handler and the list of messages it wrote. -/
def handle_client (selfP : PeerProfile) (conns : Conns)
    (msg1 msg2 : Option Msg) : Conns × List Msg :=
  match msg1 with
  | some (.verify field value) =>
    let ok := verify_match selfP.fields field value
    if ok then
      match msg2 with
      | some (.connect p) =>
        (insertConn conns p, [.verifyResult ok, .connectAck selfP])
      | _ => (conns, [.verifyResult ok])
    else
      (conns, [.verifyResult ok])
  | some (.connect p) => (insertConn conns p, [.connectAck selfP])
  | _ => (conns, [])

/-- Initiator side of a handshake attempt, the stream part of
`attempt_random_connection` (main.py lines 180-208).  `reply1` and `reply2`
are the two lines read back (`none` models no reply or a read error).  Only
`resp.get("ok")` gates sending connect, and only `ack.get("profile")` gates
recording the connection (the ack's type tag is never checked); a reply
without a profile raises on `their.get` and the except branch leaves the
dictionary unchanged. -/
def initiator_attempt (conns : Conns) (reply1 reply2 : Option Msg) : Conns :=
  match reply1 with
  | none => conns
  | some r1 =>
    if msgOk r1 then
      match reply2 with
      | none => conns
      | some r2 =>
        match msgProfile r2 with
        | some p => insertConn conns p
        | none => conns
    else conns

/-! Client game actions (main.py lines 252-303).  Each returns the local
game state after the action and whether `push_game_state_to_server` ran. -/

/-- Advisory pull before `add` (main.py lines 241-250, 268): a successful
`/state` fetch replaces the local copy wholesale; a failed fetch leaves it. -/
def sync_state (pull : Option GameState) (gs : GameState) : GameState :=
  pull.getD gs

/-- `start_sentence` (main.py lines 253-265): strip the word; a blank word
aborts with no push; otherwise install a fresh game_id (the new uuid is the
parameter `freshId`), bump seq, set the sentence to the stripped word, take
holdership, clear completed, and push. -/
def start_sentence (gs : GameState) (selfId freshId word : String) :
    GameState × Bool :=
  let w := pyStrip word
  if w = "" then (gs, false)
  else
    ({ game_id := freshId, seq := gs.seq + 1, sentence := w,
       holder_id := some selfId, completed := false }, true)

/-- `add_word` (main.py lines 267-286) applied to the local state after the
advisory refresh: a non-holder or a completed sentence aborts untouched with
no push; a blank word likewise; otherwise append (or set) the stripped word,
bump seq, and push. -/
def add_word (gs : GameState) (selfId word : String) : GameState × Bool :=
  if gs.holder_id ≠ some selfId then (gs, false)
  else if gs.completed then (gs, false)
  else
    let w := pyStrip word
    if w = "" then (gs, false)
    else
      let s := if gs.sentence ≠ "" then gs.sentence ++ " " ++ w else w
      ({ gs with sentence := s, seq := gs.seq + 1 }, true)

/-- `end_sentence` (main.py lines 288-303): a non-holder or an already
completed sentence aborts untouched with no push; otherwise strip the
sentence, append a period if absent, mark completed, bump seq, push. -/
def end_sentence (gs : GameState) (selfId : String) : GameState × Bool :=
  if gs.holder_id ≠ some selfId then (gs, false)
  else if gs.completed then (gs, false)
  else
    let s := pyStrip gs.sentence
    let s2 := if s.data.getLast? = some '.' then s else s ++ "."
    ({ gs with sentence := s2, completed := true, seq := gs.seq + 1 }, true)

/-- One entry of the client's peers dictionary (main.py line 88). -/
structure PeerRecord where
  id : String
  name : String
  host : String
  port : Nat
  last_seen : Time
deriving Repr, DecidableEq

/-- One pass of the background pruner (main.py lines 94-105): collect every
peer whose last_seen is more than DISCOVERY_TIMEOUT old and delete those
keys.  The dictionary holds one record per id, so this is exactly keeping
the records still within the timeout. -/
def prune_peers (peers : List PeerRecord) (now : Time) : List PeerRecord :=
  peers.filter (fun p => ¬ (now - p.last_seen > DISCOVERY_TIMEOUT))

/-! Theorems. -/

/-- An index reduced modulo the length of a non-empty list selects an
element of the list (the model of `random.choice`). -/
theorem getD_mod_mem {α : Type} (l : List α) (k : Nat) (d : α) (h : l ≠ []) :
    l.getD (k % l.length) d ∈ l := by
  have hlen : 0 < l.length := List.length_pos.mpr h
  have hk : k % l.length < l.length := Nat.mod_lt _ hlen
  rw [List.getD_eq_getElem l d hk]
  exact List.getElem_mem hk

/-- Evaluation of the `/pass` handler on the random branch: with a truthy
requester id, no target, and at least one other participant, the handler
succeeds with the drawn pool element and bumps the game state. -/
theorem do_pass_auto_eq (st : ServerState) (now : Time) (pid : String) (k : Nat)
    (hpid : pid ≠ "") (hothers : otherParts st.participants pid ≠ []) :
    do_pass st now pid none k =
      ⟨⟨200, .obj true none (some (passChoice st now pid k))⟩,
       { st with game := { st.game with
           holder_id := some (passChoice st now pid k),
           seq := st.game.seq + 1 } },
       true⟩ := by
  simp [do_pass, truthy, hpid, hothers]

/-- A participant drawn from the active sub-list is one of the others. -/
theorem activeParts_subset {others : List Participant} {now : Time}
    {p : Participant} (h : p ∈ activeParts others now) : p ∈ others :=
  List.mem_of_mem_filter h

/-- Truthiness of an optional string unpacked. -/
theorem truthy_iff {o : Option String} :
    truthy o = true ↔ ∃ s, o = some s ∧ s ≠ "" := by
  cases o <;> simp [truthy]

/-- Evaluation of the `/pass` handler on the target branch: a registered
target distinct from the requester is installed as holder and seq bumped,
with no condition at all on the requester beyond a truthy id. -/
theorem do_pass_target_eq (st : ServerState) (now : Time) (pid t : String)
    (k : Nat) (hpid : pid ≠ "") (ht : t ≠ "")
    (hmem : t ∈ st.participants.map (·.id)) (htp : t ≠ pid) :
    do_pass st now pid (some t) k =
      ⟨⟨200, .obj true none (some t)⟩,
       { st with game := { st.game with
           holder_id := some t,
           seq := st.game.seq + 1 } },
       true⟩ := by
  have hothers : otherParts st.participants pid ≠ [] := by
    obtain ⟨p, hp, hid⟩ := List.mem_map.mp hmem
    have hpin : p ∈ otherParts st.participants pid := by
      simp only [otherParts, List.mem_filter]
      refine ⟨hp, ?_⟩
      simp [hid, htp]
    exact List.ne_nil_of_mem hpin
  simp [do_pass, truthy, hpid, hothers, ht, hmem, htp]

/-- Evaluation of the `/pass` handler on an invalid target: a target that is
unregistered or equal to the requester is rejected with a plain 400 and
nothing changes. -/
theorem do_pass_target_invalid_eq (st : ServerState) (now : Time)
    (pid t : String) (k : Nat) (hpid : pid ≠ "")
    (hothers : otherParts st.participants pid ≠ []) (ht : t ≠ "")
    (hv : ¬(t ∈ st.participants.map (·.id) ∧ t ≠ pid)) :
    do_pass st now pid (some t) k =
      ⟨⟨400, .obj false (some "requested target invalid or not found") none⟩,
       st, false⟩ := by
  simp only [do_pass, truthy]
  rw [if_neg hpid, if_neg hothers]
  simp only [decide_eq_true_eq, if_pos ht, if_neg hv]

/-- C1: a pass without target draws the new holder from the active others
whenever some other participant is active, and only falls back to all
others when none is active: an inactive participant is never chosen while
an active one exists. -/
theorem C1_pass_prefers_active (st : ServerState) (now : Time) (pid : String)
    (k : Nat) (hpid : pid ≠ "")
    (hothers : otherParts st.participants pid ≠ []) :
    ∃ c, (do_pass st now pid none k).resp = ⟨200, .obj true none (some c)⟩ ∧
      (activeParts (otherParts st.participants pid) now ≠ [] →
        c ∈ (activeParts (otherParts st.participants pid) now).map (·.id)) ∧
      (activeParts (otherParts st.participants pid) now = [] →
        c ∈ (otherParts st.participants pid).map (·.id)) := by
  refine ⟨passChoice st now pid k, ?_, ?_, ?_⟩
  · rw [do_pass_auto_eq st now pid k hpid hothers]
  · intro hact
    have hpool : passPool st now pid =
        activeParts (otherParts st.participants pid) now := by
      simp [passPool, hact]
    unfold passChoice
    rw [hpool]
    exact List.mem_map_of_mem _ (getD_mod_mem _ k _ hact)
  · intro hact
    have hpool : passPool st now pid = otherParts st.participants pid := by
      simp [passPool, hact]
    unfold passChoice
    rw [hpool]
    exact List.mem_map_of_mem _ (getD_mod_mem _ k _ hothers)

/-- C1 witness: requester A, active other B (seen 5s ago), inactive other C
(seen 100s ago, past the 90s window): the draw lands in the active list. -/
theorem C1_pass_prefers_active_witness :
    ∃ c, (do_pass ⟨[⟨"A", "a", 100⟩, ⟨"B", "b", 95⟩, ⟨"C", "c", 0⟩],
            ⟨"g", 0, "", some "A", false⟩⟩ 100 "A" none 3).resp =
        ⟨200, .obj true none (some c)⟩ ∧
      c ∈ (activeParts
            (otherParts [⟨"A", "a", 100⟩, ⟨"B", "b", 95⟩, ⟨"C", "c", 0⟩] "A")
            100).map (·.id) := by
  obtain ⟨c, h1, h2, h3⟩ :=
    C1_pass_prefers_active
      ⟨[⟨"A", "a", 100⟩, ⟨"B", "b", 95⟩, ⟨"C", "c", 0⟩],
       ⟨"g", 0, "", some "A", false⟩⟩ 100 "A" 3 (by decide) (by decide)
  exact ⟨c, h1, h2 (by decide)⟩

/-- C10: the `/pass` handler never consults the requester beyond truthiness
of its id — `st` is arbitrary, so the requester need not be registered nor
the holder.  Without a target it succeeds whenever some other participant is
registered, reassigning the holder to a drawn other; with a registered
target distinct from the requester it always succeeds and installs it. -/
theorem C10_pass_ignores_requester_status (st : ServerState) (now : Time)
    (pid t : String) (k : Nat) (hpid : pid ≠ "") :
    (otherParts st.participants pid ≠ [] →
      do_pass st now pid none k =
        ⟨⟨200, .obj true none (some (passChoice st now pid k))⟩,
         { st with game := { st.game with
             holder_id := some (passChoice st now pid k),
             seq := st.game.seq + 1 } },
         true⟩ ∧
      passChoice st now pid k ∈ (otherParts st.participants pid).map (·.id))
    ∧ (t ≠ "" → t ∈ st.participants.map (·.id) → t ≠ pid →
      do_pass st now pid (some t) k =
        ⟨⟨200, .obj true none (some t)⟩,
         { st with game := { st.game with
             holder_id := some t,
             seq := st.game.seq + 1 } },
         true⟩) := by
  constructor
  · intro hothers
    refine ⟨do_pass_auto_eq st now pid k hpid hothers, ?_⟩
    by_cases hact : activeParts (otherParts st.participants pid) now = []
    · have hpool : passPool st now pid = otherParts st.participants pid := by
        simp [passPool, hact]
      unfold passChoice
      rw [hpool]
      exact List.mem_map_of_mem _ (getD_mod_mem _ k _ hothers)
    · have hpool : passPool st now pid =
          activeParts (otherParts st.participants pid) now := by
        simp [passPool, hact]
      unfold passChoice
      rw [hpool]
      exact List.mem_map_of_mem _
        (activeParts_subset (getD_mod_mem _ k _ hact))
  · intro ht hmem htp
    exact do_pass_target_eq st now pid t k hpid ht hmem htp

/-- C10 witness: requester Z is neither registered nor the holder, yet its
pass naming registered target B succeeds and makes B the holder. -/
theorem C10_pass_ignores_requester_status_witness :
    do_pass ⟨[⟨"A", "a", 100⟩, ⟨"B", "b", 100⟩],
        ⟨"g", 4, "s", some "A", false⟩⟩ 100 "Z" (some "B") 0 =
      ⟨⟨200, .obj true none (some "B")⟩,
       ⟨[⟨"A", "a", 100⟩, ⟨"B", "b", 100⟩], ⟨"g", 5, "s", some "B", false⟩⟩,
       true⟩ :=
  (C10_pass_ignores_requester_status
      ⟨[⟨"A", "a", 100⟩, ⟨"B", "b", 100⟩], ⟨"g", 4, "s", some "A", false⟩⟩
      100 "Z" "B" 0 (by decide)).2 (by decide) (by decide) (by decide)

/-- C2 (amended): an accepted `/pass` bumps the coordinator seq by exactly 1,
but an accepted `/update_game` REPLACES the coordinator seq wholesale with
the posted state's seq (server.py line 177), with no relation to the prior
value enforced. -/
theorem C2_amended_accepted_seq :
    (∀ (st : ServerState) (now : Time) (pid : String) (target : Option String)
        (k : Nat),
      (do_pass st now pid target k).broadcast = true →
      (do_pass st now pid target k).state.game.seq = st.game.seq + 1)
    ∧ (∀ (st : ServerState) (pid : String) (g : GameState),
      (update_game st pid (some g)).broadcast = true →
      (update_game st pid (some g)).state.game.seq = g.seq) := by
  constructor
  · intro st now pid target k h
    by_cases hpid : pid = ""
    · simp [do_pass, hpid] at h
    · by_cases hothers : otherParts st.participants pid = []
      · simp [do_pass, hpid, hothers] at h
      · by_cases htt : truthy target = true
        · obtain ⟨t, rfl, hts⟩ := truthy_iff.mp htt
          by_cases hv : (t ∈ st.participants.map (·.id) ∧ t ≠ pid)
          · rw [do_pass_target_eq st now pid t k hpid hts hv.1 hv.2]
          · rw [do_pass_target_invalid_eq st now pid t k hpid hothers hts hv]
              at h
            simp at h
        · simp [do_pass, hpid, hothers, htt]
  · intro st pid g h
    by_cases hpid : pid = ""
    · simp [update_game, hpid] at h
    · by_cases hh : g.holder_id = some pid
      · simp [update_game, hpid, hh]
      · simp [update_game, hpid, hh] at h

/-- C2 witness: a concrete accepted pass bumps seq 4 to 5, and a concrete
accepted update_game installs the posted seq. -/
theorem C2_amended_accepted_seq_witness :
    (do_pass ⟨[⟨"A", "a", 100⟩, ⟨"B", "b", 100⟩],
        ⟨"g", 4, "s", some "A", false⟩⟩ 100 "A" none 0).state.game.seq = 5 ∧
    (update_game ⟨[], ⟨"g", 0, "", some "A", false⟩⟩ "A"
        (some ⟨"g2", 7, "w", some "A", false⟩)).state.game.seq = 7 :=
  ⟨C2_amended_accepted_seq.1
      ⟨[⟨"A", "a", 100⟩, ⟨"B", "b", 100⟩], ⟨"g", 4, "s", some "A", false⟩⟩
      100 "A" none 0 (by decide),
   C2_amended_accepted_seq.2 ⟨[], ⟨"g", 0, "", some "A", false⟩⟩ "A"
      ⟨"g2", 7, "w", some "A", false⟩ (by decide)⟩

/-- C2 counterexample: the coordinator holds seq 0; the holder posts a state
with seq 5; the mutation is accepted (broadcast runs) and the coordinator
seq becomes 5, not the prior value plus 1. -/
theorem C2_counterexample_update_game_seq_jump :
    (update_game ⟨[], ⟨"g", 0, "", some "A", false⟩⟩ "A"
        (some ⟨"g", 5, "hello", some "A", false⟩)).broadcast = true ∧
    (update_game ⟨[], ⟨"g", 0, "", some "A", false⟩⟩ "A"
        (some ⟨"g", 5, "hello", some "A", false⟩)).state.game.seq = 5 ∧
    (update_game ⟨[], ⟨"g", 0, "", some "A", false⟩⟩ "A"
        (some ⟨"g", 5, "hello", some "A", false⟩)).state.game.seq ≠
      (⟨[], ⟨"g", 0, "", some "A", false⟩⟩ : ServerState).game.seq + 1 := by
  decide

/-- C4: at the failing input (sender A, posted holder B) the holder-mismatch
branch of `/update_game` responds with HTTP STATUS 200 whose body is the
JSON array pairing the error object with the number 403 — server.py line 173
passes the status code inside jsonify instead of returning a tuple — while
the authoritative state is unchanged and no broadcast runs. -/
theorem C4_update_game_mismatch_http200 :
    update_game ⟨[], ⟨"g", 0, "", some "A", false⟩⟩ "A"
        (some ⟨"g", 1, "word", some "B", false⟩) =
      ⟨⟨200, .arr false (some "sender must be the holder") 403⟩,
       ⟨[], ⟨"g", 0, "", some "A", false⟩⟩, false⟩ := by
  decide

/-- C8: at the failing input (requester A is the only registrant) the
no-other-participants branch of `/pass` responds with HTTP STATUS 200 whose
body is the JSON array pairing the error object with the number 400 —
server.py line 197 passes the status code inside jsonify — while the
authoritative state is unchanged and no broadcast runs. -/
theorem C8_pass_no_others_http200 :
    do_pass ⟨[⟨"A", "a", 100⟩], ⟨"g", 3, "s", some "A", false⟩⟩ 100 "A"
        none 0 =
      ⟨⟨200, .arr false (some "no other participants registered") 400⟩,
       ⟨[⟨"A", "a", 100⟩], ⟨"g", 3, "s", some "A", false⟩⟩, false⟩ := by
  decide

/-- C6: invoked by a non-holder, or while the sentence is completed, both
add and end leave the local game state exactly as the guard saw it and
perform no push to the coordinator. -/
theorem C6_add_end_noop (gs : GameState) (selfId word : String)
    (h : gs.holder_id ≠ some selfId ∨ gs.completed = true) :
    add_word gs selfId word = (gs, false) ∧
    end_sentence gs selfId = (gs, false) := by
  rcases h with h | h
  · exact ⟨by simp [add_word, h], by simp [end_sentence, h]⟩
  · constructor
    · by_cases hh : gs.holder_id = some selfId <;> simp [add_word, h, hh]
    · by_cases hh : gs.holder_id = some selfId <;> simp [end_sentence, h, hh]

/-- C6 witness: a node that is not the holder can neither add nor end. -/
theorem C6_add_end_noop_witness :
    add_word ⟨"g", 2, "words", some "other", false⟩ "me" "extra" =
      (⟨"g", 2, "words", some "other", false⟩, false) ∧
    end_sentence ⟨"g", 2, "words", some "other", false⟩ "me" =
      (⟨"g", 2, "words", some "other", false⟩, false) :=
  C6_add_end_noop ⟨"g", 2, "words", some "other", false⟩ "me" "extra"
    (Or.inl (by decide))

/-- C7 (amended): start with a blank word is a local no-op with no push;
with a non-blank word it installs the fresh game id, bumps the local seq,
sets the sentence to the STRIPPED word, takes holdership and clears
completed, whatever the prior state was. -/
theorem C7_amended_start_sentence (gs : GameState)
    (selfId freshId word : String) :
    (pyStrip word = "" → start_sentence gs selfId freshId word = (gs, false)) ∧
    (pyStrip word ≠ "" →
      start_sentence gs selfId freshId word =
        (⟨freshId, gs.seq + 1, pyStrip word, some selfId, false⟩, true)) := by
  constructor <;> intro h <;> simp [start_sentence, h]

/-- C7 witness: a non-blank word from a completed prior state yields a fresh
held game, and the blank branch is a no-op. -/
theorem C7_amended_start_sentence_witness :
    start_sentence ⟨"g", 3, "old words", some "other", true⟩ "me" "g9"
        "Once" = (⟨"g9", 4, "Once", some "me", false⟩, true) ∧
    start_sentence ⟨"g", 3, "old words", some "other", true⟩ "me" "g9"
        "   " = (⟨"g", 3, "old words", some "other", true⟩, false) :=
  ⟨(C7_amended_start_sentence ⟨"g", 3, "old words", some "other", true⟩
      "me" "g9" "Once").2 (by decide),
   (C7_amended_start_sentence ⟨"g", 3, "old words", some "other", true⟩
      "me" "g9" "   ").1 (by decide)⟩

/-- C7 counterexample: the word " hi " is not blank, so start accepts it,
but the sentence is set to the stripped "hi" and not to the word itself. -/
theorem C7_counterexample_start_strips :
    (start_sentence ⟨"g", 0, "", none, true⟩ "me" "g2" " hi ").2 = true ∧
    (start_sentence ⟨"g", 0, "", none, true⟩ "me" "g2" " hi ").1.sentence =
      "hi" ∧
    (start_sentence ⟨"g", 0, "", none, true⟩ "me" "g2" " hi ").1.sentence ≠
      " hi " := by
  decide

/-- C9: one pruner pass removes a peer record exactly when its age exceeds
DISCOVERY_TIMEOUT: any record whose last_seen is within the TTL survives
the sweep, and any record past it is gone after the sweep. -/
theorem C9_prune_ttl (peers : List PeerRecord) (now : Time) (p : PeerRecord) :
    p ∈ prune_peers peers now ↔
      p ∈ peers ∧ now - p.last_seen ≤ DISCOVERY_TIMEOUT := by
  simp [prune_peers, List.mem_filter, not_lt]

/-- C5 (amended): the responder always replies verify_result carrying the
match decision; for a field PRESENT as a string the decision is normalised
equality, for a list normalised membership of some element; but for a field
ABSENT from the profile the decision compares the normalised claimed value
against "none" — the normalisation of Python's stringified None — so ok can
be true with no profile attribute for the field at all. -/
theorem C5_amended_verify_semantics :
    (∀ (selfP : PeerProfile) (conns : Conns) (f v : String),
      (handle_client selfP conns (some (.verify f v)) none).2 =
        [.verifyResult (verify_match selfP.fields f v)])
    ∧ (∀ (fields : List (String × FieldVal)) (f v s : String),
      fields.lookup f = some (.str s) →
      (verify_match fields f v = true ↔ norm s = norm v))
    ∧ (∀ (fields : List (String × FieldVal)) (f v : String)
        (xs : List String),
      fields.lookup f = some (.vals xs) →
      (verify_match fields f v = true ↔ ∃ x ∈ xs, norm x = norm v))
    ∧ (∀ (fields : List (String × FieldVal)) (f v : String),
      fields.lookup f = none →
      (verify_match fields f v = true ↔ norm v = "none")) := by
  refine ⟨?_, ?_, ?_, ?_⟩
  · intro selfP conns f v
    cases hv : verify_match selfP.fields f v <;> simp [handle_client, hv]
  · intro fields f v s h
    simp [verify_match, h]
  · intro fields f v xs h
    simp [verify_match, h, list_contains, List.any_eq_true]
  · intro fields f v h
    have hn : norm "None" = "none" := by decide
    simp [verify_match, h, hn, eq_comm]

/-- C5 witness: the set-valued hobbies field matches the claim " GO "
against element "Go" after normalisation, and the responder says so. -/
theorem C5_amended_verify_semantics_witness :
    verify_match [("hobbies", FieldVal.vals ["Chess", "Go"])] "hobbies"
      " GO " = true :=
  ((C5_amended_verify_semantics.2.2.1
      [("hobbies", FieldVal.vals ["Chess", "Go"])] "hobbies" " GO "
      ["Chess", "Go"] (by decide)).mpr ⟨"Go", by decide, by decide⟩)

/-- C5 counterexample: the profile holds only the field name, yet a verify
claim on the absent field hobbies with value "None" is answered ok=true by
the responder, although no profile attribute for that field exists to be
matched. -/
theorem C5_counterexample_missing_field :
    verify_match [("name", FieldVal.str "Bob")] "hobbies" "None" = true ∧
    List.lookup "hobbies" [("name", FieldVal.str "Bob")] = none ∧
    (handle_client ⟨"resp", [("name", FieldVal.str "Bob")]⟩ []
        (some (.verify "hobbies" "None")) none).2 =
      [.verifyResult true] := by
  decide

/-- C3 (amended): connection-registry creation, both sides.  Initiator: an
entry is created iff the first reply carries ok=true and a second reply
carrying a profile arrives (the ack's type tag is never checked); any other
outcome leaves its registry unchanged.  Responder: an entry is created
after a successful verify followed by a connect — but ALSO when the very
first message is a bare connect, with no verify exchange at all; a failed
verify, a non-connect follow-up, or any other first message leaves its
registry unchanged. -/
theorem C3_amended_registry_creation :
    (∀ (conns : Conns) (r1 r2 : Msg) (p : PeerProfile),
      msgOk r1 = true → msgProfile r2 = some p →
      initiator_attempt conns (some r1) (some r2) = insertConn conns p)
    ∧ (∀ (conns : Conns) (r1 r2 : Option Msg),
      (∀ m, r1 = some m → msgOk m = false) →
      initiator_attempt conns r1 r2 = conns)
    ∧ (∀ (conns : Conns) (r1 : Msg),
      initiator_attempt conns (some r1) none = conns)
    ∧ (∀ (conns : Conns) (r1 r2 : Msg),
      msgProfile r2 = none → initiator_attempt conns (some r1) (some r2) = conns)
    ∧ (∀ (selfP : PeerProfile) (conns : Conns) (p : PeerProfile),
      handle_client selfP conns (some (.connect p)) none =
        (insertConn conns p, [.connectAck selfP]))
    ∧ (∀ (selfP : PeerProfile) (conns : Conns) (f v : String)
        (p : PeerProfile),
      verify_match selfP.fields f v = true →
      handle_client selfP conns (some (.verify f v)) (some (.connect p)) =
        (insertConn conns p, [.verifyResult true, .connectAck selfP]))
    ∧ (∀ (selfP : PeerProfile) (conns : Conns) (f v : String)
        (msg2 : Option Msg),
      verify_match selfP.fields f v = false →
      (handle_client selfP conns (some (.verify f v)) msg2).1 = conns)
    ∧ (∀ (selfP : PeerProfile) (conns : Conns) (f v : String)
        (msg2 : Option Msg),
      (∀ p, msg2 ≠ some (.connect p)) →
      (handle_client selfP conns (some (.verify f v)) msg2).1 = conns)
    ∧ (∀ (selfP : PeerProfile) (conns : Conns) (msg1 msg2 : Option Msg),
      (∀ f v, msg1 ≠ some (.verify f v)) →
      (∀ p, msg1 ≠ some (.connect p)) →
      (handle_client selfP conns msg1 msg2).1 = conns) := by
  refine ⟨?_, ?_, ?_, ?_, ?_, ?_, ?_, ?_, ?_⟩
  · intro conns r1 r2 p h1 h2
    simp [initiator_attempt, h1, h2]
  · intro conns r1 r2 h
    cases r1 with
    | none => rfl
    | some m => simp [initiator_attempt, h m rfl]
  · intro conns r1
    cases hok : msgOk r1 <;> simp [initiator_attempt, hok]
  · intro conns r1 r2 h
    cases hok : msgOk r1 <;> simp [initiator_attempt, hok, h]
  · intro selfP conns p
    rfl
  · intro selfP conns f v p h
    simp [handle_client, h]
  · intro selfP conns f v msg2 h
    simp [handle_client, h]
  · intro selfP conns f v msg2 h
    cases hv : verify_match selfP.fields f v
    · simp [handle_client, hv]
    · cases msg2 with
      | none => simp [handle_client, hv]
      | some m2 =>
        cases m2 with
        | connect p => exact absurd rfl (h p)
        | verify f2 v2 => simp [handle_client, hv]
        | verifyResult b => simp [handle_client, hv]
        | connectAck p2 => simp [handle_client, hv]
        | other => simp [handle_client, hv]
  · intro selfP conns msg1 msg2 h1 h2
    cases msg1 with
    | none => rfl
    | some m =>
      cases m with
      | verify f v => exact absurd rfl (h1 f v)
      | connect p => exact absurd rfl (h2 p)
      | verifyResult b => rfl
      | connectAck p => rfl
      | other => rfl

/-- C3 witness: a successful verify (normalised name match) followed by a
connect records the initiator's profile on the responder side. -/
theorem C3_amended_registry_creation_witness :
    handle_client ⟨"resp", [("name", FieldVal.str "Ann")]⟩ []
        (some (.verify "name" " ANN ")) (some (.connect ⟨"init", []⟩)) =
      (insertConn [] ⟨"init", []⟩,
       [.verifyResult true,
        .connectAck ⟨"resp", [("name", FieldVal.str "Ann")]⟩]) :=
  C3_amended_registry_creation.2.2.2.2.2.1
    ⟨"resp", [("name", FieldVal.str "Ann")]⟩ [] "name" " ANN "
    ⟨"init", []⟩ (by decide)

/-- C3 counterexample: starting from an empty registry the responder
receives one bare connect message — no verify was ever sent, answered, or
even attempted — and still creates a registry entry for the sender and
acks it. -/
theorem C3_counterexample_bare_connect :
    handle_client ⟨"resp", [("name", FieldVal.str "Ann")]⟩ []
        (some (.connect ⟨"init", [("name", FieldVal.str "Mallory")]⟩))
        none =
      ([("init", ⟨"init", [("name", FieldVal.str "Mallory")]⟩)],
       [.connectAck ⟨"resp", [("name", FieldVal.str "Ann")]⟩]) := by
  decide

end Icebreaker
